import Mathlib

/-!
Shallow embedding of the beego ORM session layer (`pkg/orm/orm.go`).

The file models `ormBase` / `orm` / `txOrm` and their operations.  The
external collaborators that `orm.go` delegates to — the `DbBaser` dialect
executor, the `txer`/`txEnder` transaction handles, and the contents of the
model registry (`modelCache`) — are outside the embedded source file and are
treated as abstract oracles supplied in an environment (`DbEnv`, `RegEnv`):
every operation of `orm.go` is a deterministic function of its arguments and
these oracles.  Go panics are modelled as `Except.error` with the panic
message; Go `error` values compared by identity (e.g. `ErrNoRows`) are an
inductive `Err` type.  `int64`/`uint64` fields are `Int`/`Nat` with the
explicit conversions (`uint64(id)` becomes reduction mod 2^64).
-/

set_option autoImplicit false

namespace BeegoOrm

/-- The package-level error values of `orm.go` (`ErrNoRows`, `ErrArgs`, ...),
plus `driver n` standing for an arbitrary error returned by the database
driver, and `missPK` for `ErrMissPK`.  Go compares these by identity. -/
inductive Err where
  | noRows
  | multiRows
  | txDone
  | stmtClosed
  | args
  | notImplement
  | missPK
  | driver (n : Nat)
  deriving DecidableEq, Repr

/-- Metadata of a model's primary-key field (`mi.fields.pk`): whether it is
auto-generated (`auto`), whether its Go type is an unsigned integer kind
(`fieldType & IsPositiveIntegerField > 0`), whether the pk is itself a
relation field (`rel`), and — when it is — the name of the related model's
pk field (`relModelInfo.fields.pk.name`), used by `ReadOrCreate`. -/
structure PkInfo where
  auto : Bool
  isPositive : Bool
  rel : Bool
  relPkName : String
  deriving DecidableEq, Repr

/-- Relation kinds of a field (`RelOneToOne`, `RelForeignKey`, `RelReverseOne`,
`RelManyToMany`, `RelReverseMany`), plus `plain` for a non-relation field. -/
inductive FieldType where
  | relOneToOne
  | relForeignKey
  | relReverseOne
  | relManyToMany
  | relReverseMany
  | plain
  deriving DecidableEq, Repr

/-- Metadata of a named field of a model (`fieldInfo`): its relation kind,
whether it is declared in the model (`inModel`), and — for reverse-many
fields — whether the reverse side's model is a through table
(`reverseFieldInfo.mi.isThrough`). -/
structure FieldInfo where
  fieldType : FieldType
  inModel : Bool
  throughRel : Bool
  deriving DecidableEq, Repr

/-- Metadata of a registered model (`modelInfo`): its primary-key metadata and
its named fields (`mi.fields`, as an association list). -/
structure ModelInfo where
  pk : PkInfo
  fields : List (String × FieldInfo)
  deriving DecidableEq, Repr

/-- Association-list lookup used for both registry maps and field maps. -/
def alistLookup {α : Type} (l : List (String × α)) (name : String) : Option α :=
  match l with
  | [] => none
  | (k, v) :: rest => if k = name then some v else alistLookup rest name

/-- An in-memory record (the caller's model struct, always handled through a
pointer in the embedded operations).  `model` is the struct's fully qualified
type name; `pkUint`/`pkInt` are the primary-key field's value under its
unsigned/signed reading; `pkRel` is the pk field's pointee when the pk is a
relation field; `relOne` is a to-one relation container field and `relMany`
a to-many container field (the fields `LoadRelated` writes into). -/
inductive Record where
  | mk (model : String) (pkUint : Nat) (pkInt : Int) (pkRel : Option Record)
      (relOne : Option Record) (relMany : List Record)

def Record.model : Record → String
  | .mk m _ _ _ _ _ => m

def Record.pkUint : Record → Nat
  | .mk _ u _ _ _ _ => u

def Record.pkInt : Record → Int
  | .mk _ _ i _ _ _ => i

def Record.pkRel : Record → Option Record
  | .mk _ _ _ pr _ _ => pr

def Record.relOne : Record → Option Record
  | .mk _ _ _ _ ro _ => ro

def Record.relMany : Record → List Record
  | .mk _ _ _ _ _ rm => rm

def Record.setPkUint : Record → Nat → Record
  | .mk m _ i pr ro rm, u => .mk m u i pr ro rm

def Record.setPkInt : Record → Int → Record
  | .mk m u _ pr ro rm, i => .mk m u i pr ro rm

def Record.setPkRel : Record → Option Record → Record
  | .mk m u i _ ro rm, pr => .mk m u i pr ro rm

def Record.setRelOne : Record → Option Record → Record
  | .mk m u i pr _ rm, ro => .mk m u i pr ro rm

def Record.setRelMany : Record → List Record → Record
  | .mk m u i pr ro _, rm => .mk m u i pr ro rm

/-- The model registry (`modelCache`): its by-full-name map (used by
`getMiInd`), its by-table-name map (used by `QueryTable` with a string), and
the table-name strategy function (`nameStrategyMap[defaultNameStrategy]`,
whose definition lives outside the embedded file and is kept abstract). -/
structure RegEnv where
  byFullName : List (String × ModelInfo)
  byTable : List (String × ModelInfo)
  strategy : String → String

/-- A Go `context.Context`, reduced to the one observation the claims need:
whether it is already canceled / past its deadline. -/
structure Context where
  canceled : Bool
  deriving DecidableEq, Repr

/-- `context.Background()`: never canceled. -/
def background : Context := ⟨false⟩

/-- `sql.TxOptions` (isolation level and read-only flag), passed through to
the driver's `BeginTx`. -/
structure TxOptions where
  isolation : Nat
  readOnly : Bool
  deriving DecidableEq, Repr

/-- Outcome of the caller-supplied transactional task `task(txOrm)`: returned
`nil`, returned a non-nil error, or panicked (with a panic message). -/
inductive TaskOutcome where
  | ok
  | fail (e : Err)
  | panicOut (p : String)
  deriving DecidableEq, Repr

/-- The oracles for everything `orm.go` delegates to: the `DbBaser` dialect
executor's operations (each a function of the arguments `orm.go` passes it,
returning what the driver would), and the transaction handle's
`BeginTx`/`Commit`/`Rollback` results. -/
structure DbEnv where
  readRes : Record → List String → Bool → Option Err
  insertRes : Record → Int × Option Err
  insertMultiRes : List Record → Int → Int × Option Err
  insertOrUpdateRes : Record → List String → Int × Option Err
  updateRes : Record → List String → Int × Option Err
  deleteRes : Record → List String → Int × Option Err
  oneRes : Except Err Record
  allRes : Int × Option Err × List Record
  beginTx : Context → Option TxOptions → Option Err
  commitErr : Option Err
  rollbackErr : Option Err

/-- One call into the `DbBaser` executor — i.e. one point where SQL is
generated and executed.  Operations return the list of such calls they made,
in order. -/
inductive DbCall where
  | readCall (forUpdate : Bool)
  | insertCall
  | insertMultiCall
  | insertOrUpdateCall
  | updateCall
  | deleteCall
  | oneCall
  | allCall
  deriving DecidableEq, Repr

/-- Panic message of `getMiInd` when the model is not registered. -/
def tableNotFoundMsg (name : String) : String :=
  "<Ormer> table: " ++ name ++ " not found, make sure it was registered with RegisterModel()"

/-- Panic message of `getFieldInfo` when the field is unknown. -/
def fieldNotFoundMsg (name : String) : String :=
  "<Ormer> cannot find field " ++ name

/-- Panic message of `QueryTable` when the table does not exist. -/
def tableNotExistsMsg (name : String) : String :=
  "<Ormer.QueryTable> table name: " ++ name ++ " not exists"

/-- Panic message of `QueryM2M` when the named field is not a m2m field. -/
def notM2MMsg (name : String) : String :=
  "<Ormer.QueryM2M> name " ++ name ++ " is not a m2m field"

/-- Panic message of `queryRelated` when the named field is not an available
rel/reverse field. -/
def notRelFieldMsg (name : String) : String :=
  "<Ormer> name " ++ name ++ " is not an available rel/reverse field"

/-- Panic payload `ErrMissPK` of `queryRelated`. -/
def missPKMsg : String := "<Ormer> missing pk value"

/-- `getMiInd`: resolve the record's model in the registry's by-full-name map;
panic (modelled as `Except.error`) when it is not registered. -/
def getMiInd (reg : RegEnv) (r : Record) : Except String ModelInfo :=
  match alistLookup reg.byFullName r.model with
  | some mi => .ok mi
  | none => .error (tableNotFoundMsg r.model)

/-- `getFieldInfo`: resolve a field by name in the model's field map; panic
when absent. -/
def getFieldInfo (mi : ModelInfo) (name : String) : Except String FieldInfo :=
  match alistLookup mi.fields name with
  | some fi => .ok fi
  | none => .error (fieldNotFoundMsg name)

/-- `setPk`: write the auto-generated identity back into the record's pk
field — `SetUint(uint64(id))` for an unsigned pk (reduction of the `int64`
mod 2^64), `SetInt(id)` for a signed one; a no-op when the pk is not
auto-generated. -/
def setPk (mi : ModelInfo) (r : Record) (id : Int) : Record :=
  if mi.pk.auto then
    if mi.pk.isPositive then r.setPkUint (id.emod (2 ^ 64)).toNat
    else r.setPkInt id
  else r

/-- `ReadWithCtx`: resolve the model, then one `DbBaser.Read` (the `ctx`
argument is accepted but not used by the source). -/
def ReadWithCtx (reg : RegEnv) (env : DbEnv) (_ctx : Context) (r : Record)
    (cols : List String) : Except String (Option Err) × List DbCall :=
  match getMiInd reg r with
  | .error p => (.error p, [])
  | .ok _mi => (.ok (env.readRes r cols false), [.readCall false])

/-- `Read`: context-free variant, delegates with `context.Background()`. -/
def Read (reg : RegEnv) (env : DbEnv) (r : Record) (cols : List String) :
    Except String (Option Err) × List DbCall :=
  ReadWithCtx reg env background r cols

/-- `ReadForUpdateWithCtx`: like `ReadWithCtx` with the for-update flag. -/
def ReadForUpdateWithCtx (reg : RegEnv) (env : DbEnv) (_ctx : Context) (r : Record)
    (cols : List String) : Except String (Option Err) × List DbCall :=
  match getMiInd reg r with
  | .error p => (.error p, [])
  | .ok _mi => (.ok (env.readRes r cols true), [.readCall true])

/-- `ReadForUpdate`: context-free variant. -/
def ReadForUpdate (reg : RegEnv) (env : DbEnv) (r : Record) (cols : List String) :
    Except String (Option Err) × List DbCall :=
  ReadForUpdateWithCtx reg env background r cols

/-- `InsertWithCtx`: resolve the model, one `DbBaser.Insert`; on success the
identity is written back via `setPk` and `(id, nil)` returned, on failure the
record is untouched and `(id, err)` returned. -/
def InsertWithCtx (reg : RegEnv) (env : DbEnv) (_ctx : Context) (r : Record) :
    Except String (Int × Option Err × Record) × List DbCall :=
  match getMiInd reg r with
  | .error p => (.error p, [])
  | .ok mi =>
    let idErr := env.insertRes r
    match idErr.2 with
    | some e => (.ok (idErr.1, some e, r), [.insertCall])
    | none => (.ok (idErr.1, none, setPk mi r idErr.1), [.insertCall])

/-- `Insert`: context-free variant. -/
def Insert (reg : RegEnv) (env : DbEnv) (r : Record) :
    Except String (Int × Option Err × Record) × List DbCall :=
  InsertWithCtx reg env background r

/-- `uint64` read of the pk field then conversion to `int64`
(`int64(vid.Uint())` in `ReadOrCreate`). -/
def uint64ToInt64 (u : Nat) : Int :=
  ((u : Int) + 2 ^ 63) % 2 ^ 64 - 2 ^ 63

/-- `ReadOrCreateWithCtx`: read on `col1 :: cols`; on `ErrNoRows` do one
`Insert` and return `(err == nil, id, err)`; otherwise extract the pk —
unsigned pks are converted through `int64(Uint())`, a relation pk recurses on
the pointed-to record with the related model's pk name (a nil pointee is a
reflection panic in the source), and a signed pk is read directly — and
return `(false, id, err)` with the read's error. -/
def ReadOrCreateWithCtx (reg : RegEnv) (env : DbEnv) (ctx : Context) :
    Record → String → List String →
      Except String (Bool × Int × Option Err × Record) × List DbCall
  | r, col1, cols =>
    match getMiInd reg r with
    | .error p => (.error p, [])
    | .ok mi =>
      let err := env.readRes r (col1 :: cols) false
      if err = some Err.noRows then
        match InsertWithCtx reg env ctx r with
        | (.error p, cs) => (.error p, .readCall false :: cs)
        | (.ok (id, ierr, r'), cs) =>
          (.ok (ierr.isNone, id, ierr, r'), .readCall false :: cs)
      else
        if mi.pk.isPositive then
          (.ok (false, uint64ToInt64 r.pkUint, err, r), [.readCall false])
        else if mi.pk.rel then
          match r with
          | .mk m u i (some inner) ro rm =>
            let out := ReadOrCreateWithCtx reg env ctx inner mi.pk.relPkName []
            (match out.1 with
             | .error p => .error p
             | .ok (created, id, e, inner') =>
               .ok (created, id, e, Record.mk m u i (some inner') ro rm),
             .readCall false :: out.2)
          | .mk _ _ _ none _ _ =>
            (.error "reflect: indirection through nil pk pointer", [.readCall false])
        else
          (.ok (false, r.pkInt, err, r), [.readCall false])
termination_by r _ _ => sizeOf r
decreasing_by
  simp_wf
  omega

/-- `ReadOrCreate`: context-free variant. -/
def ReadOrCreate (reg : RegEnv) (env : DbEnv) (r : Record) (col1 : String)
    (cols : List String) : Except String (Bool × Int × Option Err × Record) × List DbCall :=
  ReadOrCreateWithCtx reg env background r col1 cols

/-- The `mds` argument of `InsertMulti`: either not an array/slice at all, or
a sequence of records. -/
inductive MultiArg where
  | notSeq
  | records (rs : List Record)

/-- The one-by-one loop of `InsertMultiWithCtx` (`bulk <= 1` branch), with the
running count `cnt`: for each record resolve its model, one `DbBaser.Insert`;
on a driver error stop and return `(cnt, err)` leaving the current and later
records untouched; on success write the identity back and continue.  Returns
the final records alongside the result, and the executor calls made. -/
def insertMultiLoop (reg : RegEnv) (env : DbEnv) :
    List Record → Int → Except String (Int × Option Err × List Record) × List DbCall
  | [], cnt => (.ok (cnt, none, []), [])
  | r :: rest, cnt =>
    match getMiInd reg r with
    | .error p => (.error p, [])
    | .ok mi =>
      let idErr := env.insertRes r
      match idErr.2 with
      | some e => (.ok (cnt, some e, r :: rest), [.insertCall])
      | none =>
        let out := insertMultiLoop reg env rest (cnt + 1)
        (match out.1 with
         | .error p => .error p
         | .ok (c, e, rs) => .ok (c, e, setPk mi r idErr.1 :: rs),
         .insertCall :: out.2)

/-- `InsertMultiWithCtx`: `ErrArgs` when the input is empty or not a
sequence; one-by-one loop when `bulk <= 1`; otherwise resolve the first
record's model and delegate to one `DbBaser.InsertMulti` (no identity
write-back). -/
def InsertMultiWithCtx (reg : RegEnv) (env : DbEnv) (_ctx : Context) (bulk : Int)
    (mds : MultiArg) : Except String (Int × Option Err × MultiArg) × List DbCall :=
  match mds with
  | .notSeq => (.ok (0, some .args, .notSeq), [])
  | .records rs =>
    match rs with
    | [] => (.ok (0, some .args, .records []), [])
    | r0 :: rest =>
      if bulk ≤ 1 then
        let out := insertMultiLoop reg env (r0 :: rest) 0
        (match out.1 with
         | .error p => .error p
         | .ok (c, e, rs') => .ok (c, e, .records rs'), out.2)
      else
        match getMiInd reg r0 with
        | .error p => (.error p, [])
        | .ok _mi =>
          let ne := env.insertMultiRes (r0 :: rest) bulk
          (.ok (ne.1, ne.2, .records (r0 :: rest)), [.insertMultiCall])

/-- `InsertMulti`: context-free variant. -/
def InsertMulti (reg : RegEnv) (env : DbEnv) (bulk : Int) (mds : MultiArg) :
    Except String (Int × Option Err × MultiArg) × List DbCall :=
  InsertMultiWithCtx reg env background bulk mds

/-- `InsertOrUpdateWithCtx`: resolve the model, one `DbBaser.InsertOrUpdate`;
on success the identity is written back via `setPk`. -/
def InsertOrUpdateWithCtx (reg : RegEnv) (env : DbEnv) (_ctx : Context) (r : Record)
    (colConflictAndArgs : List String) :
    Except String (Int × Option Err × Record) × List DbCall :=
  match getMiInd reg r with
  | .error p => (.error p, [])
  | .ok mi =>
    let idErr := env.insertOrUpdateRes r colConflictAndArgs
    match idErr.2 with
    | some e => (.ok (idErr.1, some e, r), [.insertOrUpdateCall])
    | none => (.ok (idErr.1, none, setPk mi r idErr.1), [.insertOrUpdateCall])

/-- `InsertOrUpdate`: context-free variant. -/
def InsertOrUpdate (reg : RegEnv) (env : DbEnv) (r : Record)
    (colConflictAndArgs : List String) :
    Except String (Int × Option Err × Record) × List DbCall :=
  InsertOrUpdateWithCtx reg env background r colConflictAndArgs

/-- `UpdateWithCtx`: resolve the model, one `DbBaser.Update`, result passed
through. -/
def UpdateWithCtx (reg : RegEnv) (env : DbEnv) (_ctx : Context) (r : Record)
    (cols : List String) : Except String (Int × Option Err) × List DbCall :=
  match getMiInd reg r with
  | .error p => (.error p, [])
  | .ok _mi => (.ok (env.updateRes r cols), [.updateCall])

/-- `Update`: context-free variant. -/
def Update (reg : RegEnv) (env : DbEnv) (r : Record) (cols : List String) :
    Except String (Int × Option Err) × List DbCall :=
  UpdateWithCtx reg env background r cols

/-- `DeleteWithCtx`: resolve the model, one `DbBaser.Delete`; on a driver
error return it with the record untouched; when the affected-row count is
positive, zero the auto pk via `setPk mi r 0`. -/
def DeleteWithCtx (reg : RegEnv) (env : DbEnv) (_ctx : Context) (r : Record)
    (cols : List String) : Except String (Int × Option Err × Record) × List DbCall :=
  match getMiInd reg r with
  | .error p => (.error p, [])
  | .ok mi =>
    let numErr := env.deleteRes r cols
    match numErr.2 with
    | some e => (.ok (numErr.1, some e, r), [.deleteCall])
    | none =>
      if numErr.1 > 0 then (.ok (numErr.1, none, setPk mi r 0), [.deleteCall])
      else (.ok (numErr.1, none, r), [.deleteCall])

/-- `Delete`: context-free variant. -/
def Delete (reg : RegEnv) (env : DbEnv) (r : Record) (cols : List String) :
    Except String (Int × Option Err × Record) × List DbCall :=
  DeleteWithCtx reg env background r cols

/-- The handle returned by `QueryM2M` (`newQueryM2M`), recording the record
and field it was built for. -/
structure QueryM2M where
  rcd : Record
  fname : String

/-- `QueryM2MWithCtx`: resolve the model and field; accept a many-to-many
field, or a reverse-many field through a through-model; panic otherwise. -/
def QueryM2MWithCtx (reg : RegEnv) (_ctx : Context) (r : Record) (name : String) :
    Except String QueryM2M :=
  match getMiInd reg r with
  | .error p => .error p
  | .ok mi =>
    match getFieldInfo mi name with
    | .error p => .error p
    | .ok fi =>
      match fi.fieldType, fi.throughRel with
      | .relManyToMany, _ => .ok ⟨r, name⟩
      | .relReverseMany, true => .ok ⟨r, name⟩
      | _, _ => .error (notM2MMsg name)

/-- `QueryM2M`: context-free variant. -/
def QueryM2M' (reg : RegEnv) (r : Record) (name : String) : Except String QueryM2M :=
  QueryM2MWithCtx reg background r name

/-- The builder state of a `querySet` that `LoadRelated` manipulates:
`limit`, `offset`, `relDepth` and `orders`. -/
structure QsState where
  limit : Int
  offset : Int
  relDepth : Int
  orders : List String
  deriving DecidableEq, Repr

/-- `newQuerySet`: a fresh builder with Go zero values for the fields
`LoadRelated` touches. -/
def newQuerySet0 : QsState := ⟨0, 0, 0, []⟩

/-- `queryRelated`: resolve the model and field, panic with `ErrMissPK` when
the record's pk is not set (the pk-presence check `getExistPk` lives outside
the embedded file and is the abstract predicate `existPk`), then build the
rel/reverse `querySet`; any relation field declared in the model yields a
builder, anything else panics. -/
def queryRelated (reg : RegEnv) (existPk : Record → Bool) (r : Record)
    (name : String) : Except String (ModelInfo × FieldInfo × QsState) :=
  match getMiInd reg r with
  | .error p => .error p
  | .ok mi =>
    match getFieldInfo mi name with
    | .error p => .error p
    | .ok fi =>
      if existPk r then
        match fi.fieldType with
        | .plain => .error (notRelFieldMsg name)
        | _ => if fi.inModel then .ok (mi, fi, newQuerySet0)
               else .error (notRelFieldMsg name)
      else .error missPKMsg

/-- A positional argument of `LoadRelated` (the variadic `args ...interface{}`). -/
inductive LArg where
  | boolArg (b : Bool)
  | intArg (i : Int)
  | strArg (s : String)
  | otherArg
  deriving DecidableEq, Repr

/-- `ToInt64` on a positional argument (integer kinds convert, anything else
yields zero; the helper itself lives outside the embedded file). -/
def ToInt64 : LArg → Int
  | .intArg i => i
  | _ => 0

/-- `DefaultRelsDepth` of `orm.go`. -/
def DefaultRelsDepth : Int := 2

/-- Argument 0 of `LoadRelated`: `true` selects `DefaultRelsDepth`, an
integer selects itself, anything else leaves depth 0. -/
def parsedRelDepth (args : List LArg) : Int :=
  match args.get? 0 with
  | some (.boolArg true) => DefaultRelsDepth
  | some (.intArg v) => v
  | _ => 0

/-- Argument 1 of `LoadRelated`: the caller-requested limit. -/
def parsedLimit (args : List LArg) : Int :=
  match args.get? 1 with
  | some a => ToInt64 a
  | none => 0

/-- Argument 2 of `LoadRelated`: the caller-requested offset. -/
def parsedOffset (args : List LArg) : Int :=
  match args.get? 2 with
  | some a => ToInt64 a
  | none => 0

/-- Argument 3 of `LoadRelated`: the order column, when a string. -/
def parsedOrder (args : List LArg) : String :=
  match args.get? 3 with
  | some (.strArg s) => s
  | _ => ""

/-- Whether a relation kind is to-one (`RelOneToOne`, `RelForeignKey`,
`RelReverseOne`) — the kinds whose limit/offset `LoadRelated` overrides. -/
def isToOne : FieldType → Bool
  | .relOneToOne => true
  | .relForeignKey => true
  | .relReverseOne => true
  | _ => false

/-- `LoadRelatedWithCtx`: build the related `querySet`, parse the positional
arguments, override limit to 1 and offset to 0 for a to-one field, install
the builder state, then run `qs.One` into a fresh container (storing it into
the record's relation field on success, count 1; leaving the record untouched
on failure, count 0) for to-one fields, or `qs.All` into the to-many
container otherwise.  Returns the count, error, final record and final
builder state. -/
def LoadRelatedWithCtx (reg : RegEnv) (existPk : Record → Bool) (env : DbEnv)
    (_ctx : Context) (r : Record) (name : String) (args : List LArg) :
    Except String (Int × Option Err × Record × QsState) × List DbCall :=
  match queryRelated reg existPk r name with
  | .error p => (.error p, [])
  | .ok (_mi, fi, qs0) =>
    let relDepth := parsedRelDepth args
    let limit0 := parsedLimit args
    let offset0 := parsedOffset args
    let order := parsedOrder args
    let lim := if isToOne fi.fieldType then 1 else limit0
    let off := if isToOne fi.fieldType then 0 else offset0
    let qs : QsState :=
      { qs0 with
        limit := lim, offset := off, relDepth := relDepth,
        orders := if order.length > 0 then [order] else qs0.orders }
    if isToOne fi.fieldType then
      match env.oneRes with
      | .ok v => (.ok (1, none, r.setRelOne (some v), qs), [.oneCall])
      | .error e => (.ok (0, some e, r, qs), [.oneCall])
    else
      let nel := env.allRes
      (.ok (nel.1, nel.2.1, r.setRelMany nel.2.2, qs), [.allCall])

/-- `LoadRelated`: context-free variant. -/
def LoadRelated (reg : RegEnv) (existPk : Record → Bool) (env : DbEnv) (r : Record)
    (name : String) (args : List LArg) :
    Except String (Int × Option Err × Record × QsState) × List DbCall :=
  LoadRelatedWithCtx reg existPk env background r name args

/-- `QueryRelatedWithCtx`: `queryRelated`, returning the builder. -/
def QueryRelatedWithCtx (reg : RegEnv) (existPk : Record → Bool) (_ctx : Context)
    (r : Record) (name : String) : Except String QsState :=
  (queryRelated reg existPk r name).map (fun t => t.2.2)

/-- `QueryRelated`: context-free variant. -/
def QueryRelated (reg : RegEnv) (existPk : Record → Bool) (r : Record)
    (name : String) : Except String QsState :=
  QueryRelatedWithCtx reg existPk background r name

/-- The argument of `QueryTable`: a table-name string or a (pointer to a)
model struct. -/
inductive TableArg where
  | byName (s : String)
  | byRecord (r : Record)

/-- `QueryTableWithCtx`: a string goes through the name strategy and the
by-table map, a struct through its full name and the by-full-name map; an
unknown name panics, a known one yields a fresh builder for the model. -/
def QueryTableWithCtx (reg : RegEnv) (_ctx : Context) (arg : TableArg) :
    Except String (ModelInfo × QsState) :=
  match arg with
  | .byName s =>
    let name := reg.strategy s
    match alistLookup reg.byTable name with
    | some mi => .ok (mi, newQuerySet0)
    | none => .error (tableNotExistsMsg name)
  | .byRecord r =>
    match alistLookup reg.byFullName r.model with
    | some mi => .ok (mi, newQuerySet0)
    | none => .error (tableNotExistsMsg r.model)

/-- `QueryTable`: context-free variant. -/
def QueryTable (reg : RegEnv) (arg : TableArg) : Except String (ModelInfo × QsState) :=
  QueryTableWithCtx reg background arg

/-- The raw-SQL seter returned by `Raw` (`newRawSet`): the query text and its
arguments. -/
structure RawSeter where
  query : String
  rawArgs : List LArg
  deriving DecidableEq, Repr

/-- `RawWithCtx`: builds the raw seter (the `ctx` argument is unused). -/
def RawWithCtx (_ctx : Context) (query : String) (args : List LArg) : RawSeter :=
  ⟨query, args⟩

/-- `Raw`: context-free variant. -/
def Raw (query : String) (args : List LArg) : RawSeter :=
  RawWithCtx background query args

/-- The transaction session handle (`txOrm`) produced by `Begin`. -/
inductive TxOrm where
  | mk
  deriving DecidableEq, Repr

/-- `BeginWithCtxAndOpts`: `BeginTx(ctx, opts)` on the driver; its error is
returned, otherwise a transaction session. -/
def BeginWithCtxAndOpts (env : DbEnv) (ctx : Context) (opts : Option TxOptions) :
    Except Err TxOrm :=
  match env.beginTx ctx opts with
  | some e => .error e
  | none => .ok .mk

/-- `BeginWithCtx`: delegates with nil options. -/
def BeginWithCtx (env : DbEnv) (ctx : Context) : Except Err TxOrm :=
  BeginWithCtxAndOpts env ctx none

/-- `Begin`: context-free variant. -/
def Begin (env : DbEnv) : Except Err TxOrm :=
  BeginWithCtx env background

/-- `BeginWithOpts`: context-free variant with options. -/
def BeginWithOpts (env : DbEnv) (opts : Option TxOptions) : Except Err TxOrm :=
  BeginWithCtxAndOpts env background opts

/-- What `DoTx` propagates to its caller: a returned error value (possibly
nil) or a re-raised panic. -/
inductive DoTxOutcome where
  | returns (e : Option Err)
  | panicked (p : String)
  deriving DecidableEq, Repr

/-- How the transaction ended. -/
inductive TxEnd where
  | noEnd
  | rolledBack
  | committed
  deriving DecidableEq, Repr

/-- A `logs.Error` emission from `DoTx`'s deferred handler. -/
inductive LogEntry where
  | rollbackFailed (e : Err)
  | commitFailed (e : Err)
  deriving DecidableEq, Repr

/-- Full observable result of a `DoTx` run. -/
structure DoTxRes where
  outcome : DoTxOutcome
  txEnd : TxEnd
  logs : List LogEntry
  deriving DecidableEq, Repr

/-- `DoTxWithCtxAndOpts`: begin a transaction (its error returned as-is);
run the task; the deferred handler rolls back when the task panicked or
returned a non-nil error (re-raising the panic / returning that error, and
logging a rollback failure without letting it replace the outcome), and
commits when the task returned nil (logging a commit failure while still
returning nil). -/
def DoTxWithCtxAndOpts (env : DbEnv) (ctx : Context) (opts : Option TxOptions)
    (task : TaskOutcome) : DoTxRes :=
  match env.beginTx ctx opts with
  | some e => { outcome := .returns (some e), txEnd := .noEnd, logs := [] }
  | none =>
    match task with
    | .panicOut p =>
      { outcome := .panicked p, txEnd := .rolledBack,
        logs := match env.rollbackErr with
                | some e2 => [.rollbackFailed e2]
                | none => [] }
    | .fail e =>
      { outcome := .returns (some e), txEnd := .rolledBack,
        logs := match env.rollbackErr with
                | some e2 => [.rollbackFailed e2]
                | none => [] }
    | .ok =>
      { outcome := .returns none, txEnd := .committed,
        logs := match env.commitErr with
                | some e2 => [.commitFailed e2]
                | none => [] }

/-- `DoTxWithCtx`: delegates with nil options. -/
def DoTxWithCtx (env : DbEnv) (ctx : Context) (task : TaskOutcome) : DoTxRes :=
  DoTxWithCtxAndOpts env ctx none task

/-- `DoTxWithOpts`: context-free variant with options. -/
def DoTxWithOpts (env : DbEnv) (opts : Option TxOptions) (task : TaskOutcome) : DoTxRes :=
  DoTxWithCtxAndOpts env background opts task

/-- `DoTx`: context-free variant. -/
def DoTx (env : DbEnv) (task : TaskOutcome) : DoTxRes :=
  DoTxWithCtx env background task

/-! Concrete fixtures used by witnesses and counterexamples: small registered
models (auto signed pk `miA`, auto unsigned pk `miPos`, non-auto pk `miNoAuto`,
relation pk `miRel`), records of those models, and oracle environments. -/

/-- A model with an auto-generated signed-integer pk, a to-one relation field
and a reverse-many relation field. -/
def miA : ModelInfo :=
  ⟨⟨true, false, false, "id"⟩,
   [("Profile", ⟨.relOneToOne, true, false⟩),
    ("Posts", ⟨.relReverseMany, true, false⟩),
    ("Tags", ⟨.relManyToMany, true, false⟩),
    ("Name", ⟨.plain, true, false⟩)]⟩

/-- A model with an auto-generated unsigned pk. -/
def miPos : ModelInfo := ⟨⟨true, true, false, "id"⟩, []⟩

/-- A model whose pk is not auto-generated. -/
def miNoAuto : ModelInfo := ⟨⟨false, false, false, "id"⟩, []⟩

/-- A model whose pk is itself a relation field to `pkgB.B`. -/
def miRel : ModelInfo := ⟨⟨false, false, true, "id"⟩, []⟩

/-- A model with an auto signed pk (the target of `miRel`'s pk relation). -/
def miB : ModelInfo := ⟨⟨true, false, false, "id"⟩, []⟩

def recA : Record := .mk "pkgA.A" 0 5 none none []

def recA2 : Record := .mk "pkgA.A" 0 9 none none []

def recB : Record := .mk "pkgB.B" 0 0 none none []

def recPos : Record := .mk "pkgP.P" 3 0 none none []

def recNoAuto : Record := .mk "pkgN.N" 0 4 none none []

def recU : Record := .mk "pkgU.U" 0 0 none none []

/-- A record of the relation-pk model, whose pk field points at a `pkgB.B`
record. -/
def recRel : Record := .mk "pkgR.R" 0 0 (some recB) none []

/-- A registry holding all the fixture models. -/
def regMain : RegEnv :=
  ⟨[("pkgA.A", miA), ("pkgB.B", miB), ("pkgP.P", miPos), ("pkgN.N", miNoAuto),
    ("pkgR.R", miRel)],
   [("a", miA)], id⟩

/-- The empty registry. -/
def regEmpty : RegEnv := ⟨[], [], id⟩

/-- A baseline oracle environment: every driver operation succeeds. -/
def envBase : DbEnv where
  readRes := fun _ _ _ => none
  insertRes := fun _ => (7, none)
  insertMultiRes := fun rs _ => ((rs.length : Int), none)
  insertOrUpdateRes := fun _ _ => (8, none)
  updateRes := fun _ _ => (1, none)
  deleteRes := fun _ _ => (1, none)
  oneRes := .ok recB
  allRes := (2, none, [recB, recB])
  beginTx := fun _ _ => none
  commitErr := none
  rollbackErr := none

/-- Environment whose rollback and commit both fail (to observe logging). -/
def envTx : DbEnv :=
  { envBase with rollbackErr := some (.driver 1), commitErr := some (.driver 2) }

/-- Environment where every read reports `ErrNoRows`. -/
def envNoRows : DbEnv :=
  { envBase with readRes := fun _ _ _ => some Err.noRows }

/-- Environment where reading a `pkgB.B` record reports `ErrNoRows` and every
other read finds its row. -/
def envRelNoRows : DbEnv :=
  { envBase with
    readRes := fun r _ _ => if r.model = "pkgB.B" then some Err.noRows else none }

/-- Environment where inserting the record with signed pk 9 fails. -/
def envInsFail : DbEnv :=
  { envBase with
    insertRes := fun r => if r.pkInt = 9 then (0, some (Err.driver 3)) else (7, none) }

/-- Environment where `qs.One` fails. -/
def envOneFail : DbEnv :=
  { envBase with oneRes := .error (Err.driver 4) }

/-- Environment where a delete affects no rows. -/
def envDel0 : DbEnv :=
  { envBase with deleteRes := fun _ _ => (0, none) }

@[simp]
theorem pkUint_setPkUint (r : Record) (u : Nat) : (r.setPkUint u).pkUint = u := by
  cases r; rfl

@[simp]
theorem pkInt_setPkInt (r : Record) (i : Int) : (r.setPkInt i).pkInt = i := by
  cases r; rfl

@[simp]
theorem relOne_setRelOne (r : Record) (v : Option Record) : (r.setRelOne v).relOne = v := by
  cases r; rfl

/-- C1: for every transactional unit of work run via `DoTx` (and its
WithCtx/WithOpts variants), once the transaction begins: a task that returns
a non-nil error is rolled back and that error is returned; a task that panics
is rolled back and the panic is re-raised; a task that returns nil is
committed and nil returned; a rollback or commit failure is logged and never
replaces the task's original outcome; and the variants all delegate to
`DoTxWithCtxAndOpts`. -/
theorem C1_doTx_outcome (env : DbEnv) (ctx : Context) (opts : Option TxOptions)
    (h : env.beginTx ctx opts = none) :
    (∀ e, DoTxWithCtxAndOpts env ctx opts (.fail e) =
      { outcome := .returns (some e), txEnd := .rolledBack,
        logs := match env.rollbackErr with
                | some e2 => [.rollbackFailed e2]
                | none => [] })
    ∧ (∀ p, DoTxWithCtxAndOpts env ctx opts (.panicOut p) =
      { outcome := .panicked p, txEnd := .rolledBack,
        logs := match env.rollbackErr with
                | some e2 => [.rollbackFailed e2]
                | none => [] })
    ∧ (DoTxWithCtxAndOpts env ctx opts .ok =
      { outcome := .returns none, txEnd := .committed,
        logs := match env.commitErr with
                | some e2 => [.commitFailed e2]
                | none => [] })
    ∧ (∀ env' task, DoTx env' task = DoTxWithCtxAndOpts env' background none task)
    ∧ (∀ env' ctx' task, DoTxWithCtx env' ctx' task = DoTxWithCtxAndOpts env' ctx' none task)
    ∧ (∀ env' opts' task, DoTxWithOpts env' opts' task =
        DoTxWithCtxAndOpts env' background opts' task) := by
  refine ⟨?_, ?_, ?_, fun _ _ => rfl, fun _ _ _ => rfl, fun _ _ _ => rfl⟩ <;>
    simp [DoTxWithCtxAndOpts, h]

/-- C1 witness: with a successful begin and both rollback and commit failing,
a failing task yields rollback with its own error returned and the rollback
failure logged; a nil-returning task commits and still returns nil with the
commit failure logged. -/
theorem C1_doTx_outcome_witness :
    envTx.beginTx background none = none
    ∧ DoTxWithCtxAndOpts envTx background none (.fail (.driver 5)) =
      { outcome := .returns (some (.driver 5)), txEnd := .rolledBack,
        logs := [.rollbackFailed (.driver 1)] }
    ∧ DoTxWithCtxAndOpts envTx background none (.panicOut "boom") =
      { outcome := .panicked "boom", txEnd := .rolledBack,
        logs := [.rollbackFailed (.driver 1)] }
    ∧ DoTxWithCtxAndOpts envTx background none .ok =
      { outcome := .returns none, txEnd := .committed,
        logs := [.commitFailed (.driver 2)] } :=
  ⟨rfl,
   (C1_doTx_outcome envTx background none rfl).1 (.driver 5),
   (C1_doTx_outcome envTx background none rfl).2.1 "boom",
   (C1_doTx_outcome envTx background none rfl).2.2.1⟩

/-- C6: every context-free operation equals its context-accepting variant
applied to the background context with the same remaining arguments. -/
theorem C6_ctx_free_delegation (reg : RegEnv) (env : DbEnv) (existPk : Record → Bool)
    (r : Record) (cols : List String) (col1 : String) (bulk : Int) (mds : MultiArg)
    (name : String) (args : List LArg) (q : String) (opts : Option TxOptions)
    (task : TaskOutcome) (arg : TableArg) :
    Read reg env r cols = ReadWithCtx reg env background r cols
    ∧ ReadForUpdate reg env r cols = ReadForUpdateWithCtx reg env background r cols
    ∧ ReadOrCreate reg env r col1 cols = ReadOrCreateWithCtx reg env background r col1 cols
    ∧ Insert reg env r = InsertWithCtx reg env background r
    ∧ InsertMulti reg env bulk mds = InsertMultiWithCtx reg env background bulk mds
    ∧ InsertOrUpdate reg env r cols = InsertOrUpdateWithCtx reg env background r cols
    ∧ Update reg env r cols = UpdateWithCtx reg env background r cols
    ∧ Delete reg env r cols = DeleteWithCtx reg env background r cols
    ∧ QueryM2M' reg r name = QueryM2MWithCtx reg background r name
    ∧ LoadRelated reg existPk env r name args =
        LoadRelatedWithCtx reg existPk env background r name args
    ∧ QueryRelated reg existPk r name = QueryRelatedWithCtx reg existPk background r name
    ∧ QueryTable reg arg = QueryTableWithCtx reg background arg
    ∧ Raw q args = RawWithCtx background q args
    ∧ Begin env = BeginWithCtx env background
    ∧ BeginWithCtx env background = BeginWithCtxAndOpts env background none
    ∧ BeginWithOpts env opts = BeginWithCtxAndOpts env background opts
    ∧ DoTx env task = DoTxWithCtx env background task
    ∧ DoTxWithOpts env opts task = DoTxWithCtxAndOpts env background opts task :=
  ⟨rfl, rfl, rfl, rfl, rfl, rfl, rfl, rfl, rfl, rfl, rfl, rfl, rfl, rfl, rfl, rfl,
   rfl, rfl⟩

/-- C7: the claim requires a canceled / past-deadline context to abort the
in-flight statement and surface a context-cancellation failure; but the
`WithCtx` CRUD operations of `orm.go` drop the context argument without
passing it to the executor, so their result is identical for a canceled
context and the background context — no cancellation failure is ever
surfaced by this layer. -/
theorem C7_ctx_ignored_by_crud (reg : RegEnv) (env : DbEnv) (r : Record)
    (cols : List String) (bulk : Int) (mds : MultiArg)
    (ctx ctx' : Context) :
    ReadWithCtx reg env ctx r cols = ReadWithCtx reg env ctx' r cols
    ∧ ReadForUpdateWithCtx reg env ctx r cols = ReadForUpdateWithCtx reg env ctx' r cols
    ∧ InsertWithCtx reg env ctx r = InsertWithCtx reg env ctx' r
    ∧ InsertMultiWithCtx reg env ctx bulk mds = InsertMultiWithCtx reg env ctx' bulk mds
    ∧ InsertOrUpdateWithCtx reg env ctx r cols = InsertOrUpdateWithCtx reg env ctx' r cols
    ∧ UpdateWithCtx reg env ctx r cols = UpdateWithCtx reg env ctx' r cols
    ∧ DeleteWithCtx reg env ctx r cols = DeleteWithCtx reg env ctx' r cols :=
  ⟨rfl, rfl, rfl, rfl, rfl, rfl, rfl⟩

/-- C2: a successful `Insert` (or `InsertOrUpdate`) returns the
database-assigned identity and writes it back into the record's pk via
`setPk` — stored as unsigned (`uint64(id)`) when the pk type is unsigned,
signed otherwise — while a non-auto pk leaves the record unchanged by the
write-back step. -/
theorem C2_insert_identity_writeback (reg : RegEnv) (env : DbEnv) (ctx : Context)
    (r : Record) (mi : ModelInfo) (id : Int)
    (hmi : alistLookup reg.byFullName r.model = some mi) :
    ((env.insertRes r).2 = none →
      (InsertWithCtx reg env ctx r).1 =
        .ok ((env.insertRes r).1, none, setPk mi r (env.insertRes r).1))
    ∧ (∀ cols, (env.insertOrUpdateRes r cols).2 = none →
      (InsertOrUpdateWithCtx reg env ctx r cols).1 =
        .ok ((env.insertOrUpdateRes r cols).1, none,
             setPk mi r (env.insertOrUpdateRes r cols).1))
    ∧ (mi.pk.auto = true → mi.pk.isPositive = true →
        (setPk mi r id).pkUint = (id.emod (2 ^ 64)).toNat)
    ∧ (mi.pk.auto = true → mi.pk.isPositive = false → (setPk mi r id).pkInt = id)
    ∧ (mi.pk.auto = false → setPk mi r id = r) := by
  refine ⟨?_, ?_, ?_, ?_, ?_⟩
  · intro h
    simp [InsertWithCtx, getMiInd, hmi, h]
  · intro cols h
    simp [InsertOrUpdateWithCtx, getMiInd, hmi, h]
  · intro ha hp
    simp [setPk, ha, hp]
  · intro ha hp
    simp [setPk, ha, hp]
  · intro ha
    simp [setPk, ha]

/-- C2 witness: inserting the signed-auto-pk record `recA` in `envBase`
returns identity 7 and writes 7 into the pk field; the non-auto model's
write-back is the identity function. -/
theorem C2_insert_identity_writeback_witness :
    alistLookup regMain.byFullName recA.model = some miA
    ∧ (envBase.insertRes recA).2 = none
    ∧ (InsertWithCtx regMain envBase background recA).1 =
        .ok (7, none, setPk miA recA 7)
    ∧ (setPk miA recA 7).pkInt = 7
    ∧ setPk miNoAuto recNoAuto 7 = recNoAuto :=
  ⟨rfl, rfl,
   (C2_insert_identity_writeback regMain envBase background recA miA 7 rfl).1 rfl,
   (C2_insert_identity_writeback regMain envBase background recA miA 7 rfl).2.2.2.1 rfl rfl,
   (C2_insert_identity_writeback regMain envBase background recNoAuto miNoAuto 7
      (by simp [regMain, alistLookup, recNoAuto, Record.model])).2.2.2.2 rfl⟩

/-- C8: a successful `Delete` with a positive affected-row count resets the
record's pk through `setPk mi r 0` — zeroing it exactly when the pk is
auto-generated — while a zero affected-row count or a driver error leaves the
record entirely unchanged. -/
theorem C8_delete_pk_reset (reg : RegEnv) (env : DbEnv) (ctx : Context)
    (r : Record) (cols : List String) (mi : ModelInfo)
    (hmi : alistLookup reg.byFullName r.model = some mi) :
    ((env.deleteRes r cols).2 = none → (env.deleteRes r cols).1 > 0 →
      (DeleteWithCtx reg env ctx r cols).1 =
        .ok ((env.deleteRes r cols).1, none, setPk mi r 0))
    ∧ (mi.pk.auto = true → mi.pk.isPositive = true → (setPk mi r 0).pkUint = 0)
    ∧ (mi.pk.auto = true → mi.pk.isPositive = false → (setPk mi r 0).pkInt = 0)
    ∧ (mi.pk.auto = false → setPk mi r 0 = r)
    ∧ ((env.deleteRes r cols).2 = none → (env.deleteRes r cols).1 = 0 →
      (DeleteWithCtx reg env ctx r cols).1 = .ok (0, none, r))
    ∧ (∀ e, (env.deleteRes r cols).2 = some e →
      (DeleteWithCtx reg env ctx r cols).1 =
        .ok ((env.deleteRes r cols).1, some e, r)) := by
  refine ⟨?_, ?_, ?_, ?_, ?_, ?_⟩
  · intro h hn
    simp [DeleteWithCtx, getMiInd, hmi, h, hn]
  · intro ha hp
    simp only [setPk, ha, hp, if_true, pkUint_setPkUint]
    decide
  · intro ha hp
    simp [setPk, ha, hp]
  · intro ha
    simp [setPk, ha]
  · intro h hn
    simp [DeleteWithCtx, getMiInd, hmi, h, hn]
  · intro e h
    simp [DeleteWithCtx, getMiInd, hmi, h]

/-- C8 witness: deleting `recA` (auto signed pk, one affected row) zeroes its
pk; with the zero-affected-rows environment the record comes back unchanged. -/
theorem C8_delete_pk_reset_witness :
    alistLookup regMain.byFullName recA.model = some miA
    ∧ (envBase.deleteRes recA []).2 = none ∧ (envBase.deleteRes recA []).1 > 0
    ∧ (DeleteWithCtx regMain envBase background recA []).1 =
        .ok (1, none, setPk miA recA 0)
    ∧ (setPk miA recA 0).pkInt = 0
    ∧ (DeleteWithCtx regMain envDel0 background recA []).1 = .ok (0, none, recA) :=
  ⟨rfl, rfl, by decide,
   (C8_delete_pk_reset regMain envBase background recA [] miA rfl).1 rfl (by decide),
   (C8_delete_pk_reset regMain envBase background recA [] miA rfl).2.2.1 rfl rfl,
   (C8_delete_pk_reset regMain envDel0 background recA [] miA rfl).2.2.2.2.1 rfl rfl⟩

/-- The one-by-one loop on records of a single registered model where every
driver insert succeeds: it counts all records, writes each identity back, and
makes exactly one insert call per record. -/
theorem insertMultiLoop_all_ok (reg : RegEnv) (env : DbEnv) (mi : ModelInfo)
    (mname : String) (hmi : alistLookup reg.byFullName mname = some mi)
    (rs : List Record) :
    ∀ (cnt : Int), (∀ r ∈ rs, r.model = mname) →
      (∀ r ∈ rs, (env.insertRes r).2 = none) →
      insertMultiLoop reg env rs cnt =
        (.ok (cnt + rs.length, none,
              rs.map (fun r => setPk mi r (env.insertRes r).1)),
         List.replicate rs.length .insertCall) := by
  induction rs with
  | nil => intro cnt _ _; simp [insertMultiLoop]
  | cons r rest ih =>
    intro cnt hm hok
    have hr : r.model = mname := hm r (by simp)
    have hro : (env.insertRes r).2 = none := hok r (by simp)
    have ihx := ih (cnt + 1) (fun x hx => hm x (by simp [hx]))
      (fun x hx => hok x (by simp [hx]))
    have hcast : cnt + 1 + (rest.length : Int) = cnt + ((rest.length + 1 : Nat) : Int) := by
      push_cast
      ring
    simp only [insertMultiLoop, getMiInd, hr, hmi, hro, ihx, List.map_cons,
      List.length_cons, List.replicate_succ, List.append_eq, hcast]

/-- The one-by-one loop where the first `pre.length` inserts succeed and the
next fails with `e`: it stops with the running count, the failing error, the
earlier records updated and the rest untouched, with one insert call per
attempt and no other executor call. -/
theorem insertMultiLoop_stops_at_failure (reg : RegEnv) (env : DbEnv)
    (mi : ModelInfo) (mname : String)
    (hmi : alistLookup reg.byFullName mname = some mi)
    (pre : List Record) (bad : Record) (post : List Record) (e : Err) :
    ∀ (cnt : Int), (∀ r ∈ pre, r.model = mname) → bad.model = mname →
      (∀ r ∈ pre, (env.insertRes r).2 = none) →
      (env.insertRes bad).2 = some e →
      insertMultiLoop reg env (pre ++ bad :: post) cnt =
        (.ok (cnt + pre.length, some e,
              pre.map (fun r => setPk mi r (env.insertRes r).1) ++ bad :: post),
         List.replicate (pre.length + 1) .insertCall) := by
  induction pre with
  | nil =>
    intro cnt _ hbm _ hbad
    simp [insertMultiLoop, getMiInd, hbm, hmi, hbad, List.replicate]
  | cons r rest ih =>
    intro cnt hm hbm hok hbad
    have hr : r.model = mname := hm r (by simp)
    have hro : (env.insertRes r).2 = none := hok r (by simp)
    have ihx := ih (cnt + 1) (fun x hx => hm x (by simp [hx])) hbm
      (fun x hx => hok x (by simp [hx])) hbad
    have hcast : cnt + 1 + (rest.length : Int) = cnt + ((rest.length + 1 : Nat) : Int) := by
      push_cast
      ring
    simp only [List.cons_append, insertMultiLoop, getMiInd, hr, hmi, hro,
      List.append_eq, ihx, List.map_cons, List.length_cons, List.replicate_succ,
      hcast]

/-- `InsertMultiWithCtx` on a non-empty sequence with `bulk <= 1` is the
one-by-one loop started at count 0. -/
theorem insertMultiWithCtx_loop (reg : RegEnv) (env : DbEnv) (ctx : Context)
    (bulk : Int) (rs : List Record) (h : rs ≠ []) (hb : bulk ≤ 1) :
    InsertMultiWithCtx reg env ctx bulk (.records rs) =
      (match (insertMultiLoop reg env rs 0).1 with
       | .error p => .error p
       | .ok (c, e, rs') => .ok (c, e, .records rs'),
       (insertMultiLoop reg env rs 0).2) := by
  cases rs with
  | nil => exact absurd rfl h
  | cons a l => simp [InsertMultiWithCtx, hb]

/-- C3: `InsertMulti` returns `ErrArgs` on an empty or non-sequence input;
with `bulk <= 1` (below the batch threshold of 2) it inserts one-by-one,
writing each identity back and returning the full count on success; with
`bulk > 1` it delegates to a single `DbBaser.InsertMulti` call, returns its
total count, and performs no identity write-back (the records come back
unchanged). -/
theorem C3_insertMulti_modes (reg : RegEnv) (env : DbEnv) (ctx : Context)
    (bulk : Int) (mi : ModelInfo) (mname : String)
    (hmi : alistLookup reg.byFullName mname = some mi) :
    ((InsertMultiWithCtx reg env ctx bulk .notSeq).1 = .ok (0, some .args, .notSeq))
    ∧ ((InsertMultiWithCtx reg env ctx bulk (.records [])).1 =
        .ok (0, some .args, .records []))
    ∧ (∀ rs, rs ≠ [] → bulk ≤ 1 → (∀ r ∈ rs, r.model = mname) →
        (∀ r ∈ rs, (env.insertRes r).2 = none) →
        InsertMultiWithCtx reg env ctx bulk (.records rs) =
          (.ok ((rs.length : Int), none,
                .records (rs.map (fun r => setPk mi r (env.insertRes r).1))),
           List.replicate rs.length .insertCall))
    ∧ (∀ r0 rest, 1 < bulk → r0.model = mname →
        InsertMultiWithCtx reg env ctx bulk (.records (r0 :: rest)) =
          (.ok ((env.insertMultiRes (r0 :: rest) bulk).1,
                (env.insertMultiRes (r0 :: rest) bulk).2,
                .records (r0 :: rest)),
           [.insertMultiCall])) := by
  refine ⟨rfl, rfl, ?_, ?_⟩
  · intro rs hne hb hm hok
    rw [insertMultiWithCtx_loop reg env ctx bulk rs hne hb,
      insertMultiLoop_all_ok reg env mi mname hmi rs 0 hm hok]
    simp
  · intro r0 rest hb hr0
    have hb' : ¬ bulk ≤ 1 := by omega
    simp [InsertMultiWithCtx, hb', getMiInd, hr0, hmi]

/-- C3 witness: two `pkgA.A` records inserted with `bulk = 1` both get their
identities written back and the count is 2; with `bulk = 2` the batched path
returns the driver's total and leaves the records unchanged. -/
theorem C3_insertMulti_modes_witness :
    alistLookup regMain.byFullName "pkgA.A" = some miA
    ∧ InsertMultiWithCtx regMain envBase background 1 (.records [recA, recA2]) =
        (.ok (2, none, .records [setPk miA recA 7, setPk miA recA2 7]),
         [.insertCall, .insertCall])
    ∧ InsertMultiWithCtx regMain envBase background 2 (.records [recA, recA2]) =
        (.ok (2, none, .records [recA, recA2]), [.insertMultiCall]) := by
  refine ⟨rfl, ?_, ?_⟩
  · have h := (C3_insertMulti_modes regMain envBase background 1 miA "pkgA.A" rfl).2.2.1
      [recA, recA2] (by simp) (by decide)
      (by intro r hr; cases hr with
          | head => rfl
          | tail _ hr2 => cases hr2 with
            | head => rfl
            | tail _ h3 => cases h3)
      (by intro r hr; rfl)
    rw [h]
    rfl
  · have h := (C3_insertMulti_modes regMain envBase background 2 miA "pkgA.A" rfl).2.2.2
      recA [recA2] (by decide) rfl
    rw [h]
    rfl

/-- C10: in one-by-one mode (`bulk <= 1`), a failure on the record after
`pre` returns the count `pre.length` together with the driver error; the
earlier records keep their written-back identities, the failing and later
records are untouched, and the call trace is exactly one insert per attempt —
no rollback or undo call of any kind. -/
theorem C10_insertMulti_not_atomic (reg : RegEnv) (env : DbEnv) (ctx : Context)
    (bulk : Int) (mi : ModelInfo) (mname : String) (pre : List Record)
    (bad : Record) (post : List Record) (e : Err)
    (hb : bulk ≤ 1)
    (hmi : alistLookup reg.byFullName mname = some mi)
    (hm : ∀ r ∈ pre, r.model = mname) (hbm : bad.model = mname)
    (hok : ∀ r ∈ pre, (env.insertRes r).2 = none)
    (hbad : (env.insertRes bad).2 = some e) :
    InsertMultiWithCtx reg env ctx bulk (.records (pre ++ bad :: post)) =
      (.ok ((pre.length : Int), some e,
            .records (pre.map (fun r => setPk mi r (env.insertRes r).1)
                      ++ bad :: post)),
       List.replicate (pre.length + 1) .insertCall) := by
  rw [insertMultiWithCtx_loop reg env ctx bulk (pre ++ bad :: post)
      (by simp) hb,
    insertMultiLoop_stops_at_failure reg env mi mname hmi pre bad post e 0 hm
      hbm hok hbad]
  simp

/-- C10 witness: inserting `[recA, recA2]` with `bulk = 1` in the environment
where `recA2`'s insert fails yields count 1 and the driver error, `recA`
updated, `recA2` untouched, and exactly two insert calls. -/
theorem C10_insertMulti_not_atomic_witness :
    (envInsFail.insertRes recA2).2 = some (.driver 3)
    ∧ InsertMultiWithCtx regMain envInsFail background 1 (.records [recA, recA2]) =
      (.ok (1, some (.driver 3), .records [setPk miA recA 7, recA2]),
       [.insertCall, .insertCall]) := by
  refine ⟨rfl, ?_⟩
  have h := C10_insertMulti_not_atomic regMain envInsFail background 1 miA
    "pkgA.A" [recA] recA2 [] (.driver 3) (by decide) rfl
    (by intro r hr; cases hr with
        | head => rfl
        | tail _ h2 => cases h2)
    rfl
    (by intro r hr; cases hr with
        | head => rfl
        | tail _ h2 => cases h2)
    rfl
  rw [List.singleton_append] at h
  rw [h]
  rfl

/-- C4 counterexample: the claim says an `Insert` happens if and only if the
read fails with the no-rows error, and that a found row yields
`(false, pk, nil)`.  For the record `recRel`, whose model's pk is itself a
relation field, the outer read finds the row (`readRes = none`), yet
`ReadOrCreate` recurses on the pointed-to `pkgB.B` record, whose read hits
`ErrNoRows`, so an insert is performed and `(true, 7, nil)` is returned —
`created = true` and a second read plus an insert despite the found row. -/
theorem C4_readOrCreate_counterexample :
    envRelNoRows.readRes recRel ["code"] false = none
    ∧ (ReadOrCreateWithCtx regMain envRelNoRows background recRel "code" []).1 =
        .ok (true, 7, none,
          Record.mk "pkgR.R" 0 0 (some (Record.mk "pkgB.B" 0 7 none none [])) none [])
    ∧ (ReadOrCreateWithCtx regMain envRelNoRows background recRel "code" []).2 =
        [.readCall false, .readCall false, .insertCall] := by
  refine ⟨rfl, ?_, ?_⟩ <;>
    simp [ReadOrCreateWithCtx, getMiInd, alistLookup, InsertWithCtx, setPk,
      envRelNoRows, envBase, regMain, recRel, recB, miRel, miB,
      Record.model, Record.pkInt, Record.pkUint, Record.setPkInt, uint64ToInt64]

/-- C4 (amended): provided the model's pk is not itself a relation field,
`ReadOrCreate` is select-then-insert with no retry: a read failing with
`ErrNoRows` triggers exactly one `Insert` whose outcome — success
`(true, id, nil)` with the identity written back, or failure
`(false, id, err)` surfaced to the caller — is returned directly; any other
read outcome performs no insert and returns `(false, pk-value, read-err)`,
in particular `(false, pk, nil)` when the row was found.  (When the pk is a
relation field, `ReadOrCreate` instead recurses on the pointed-to record.) -/
theorem C4_readOrCreate_amended (reg : RegEnv) (env : DbEnv) (ctx : Context)
    (r : Record) (mi : ModelInfo) (col1 : String) (cols : List String)
    (hmi : alistLookup reg.byFullName r.model = some mi) :
    (env.readRes r (col1 :: cols) false = some .noRows →
      ((env.insertRes r).2 = none →
        ReadOrCreateWithCtx reg env ctx r col1 cols =
          (.ok (true, (env.insertRes r).1, none, setPk mi r (env.insertRes r).1),
           [.readCall false, .insertCall]))
      ∧ (∀ e, (env.insertRes r).2 = some e →
        ReadOrCreateWithCtx reg env ctx r col1 cols =
          (.ok (false, (env.insertRes r).1, some e, r),
           [.readCall false, .insertCall])))
    ∧ (∀ e2, env.readRes r (col1 :: cols) false = e2 → e2 ≠ some .noRows →
        mi.pk.rel = false →
        ReadOrCreateWithCtx reg env ctx r col1 cols =
          (.ok (false,
                if mi.pk.isPositive then uint64ToInt64 r.pkUint else r.pkInt,
                e2, r),
           [.readCall false])) := by
  constructor
  · intro hread
    constructor
    · intro hins
      rw [ReadOrCreateWithCtx.eq_def]
      simp [getMiInd, hmi, hread, InsertWithCtx, hins]
    · intro e hins
      rw [ReadOrCreateWithCtx.eq_def]
      simp [getMiInd, hmi, hread, InsertWithCtx, hins]
  · intro e2 hread hne hrel
    rw [ReadOrCreateWithCtx.eq_def]
    by_cases hp : mi.pk.isPositive
    · simp [getMiInd, hmi, hread, hne, hp]
    · simp [getMiInd, hmi, hread, hne, hp, hrel]

/-- C4 (amended) witness: on the non-relation-pk record `recA`, a no-rows
read triggers exactly one insert returning `(true, 7, nil)` with the identity
written back; a successful read performs no insert and returns
`(false, pk, nil)`. -/
theorem C4_readOrCreate_amended_witness :
    alistLookup regMain.byFullName recA.model = some miA
    ∧ envNoRows.readRes recA ["name"] false = some .noRows
    ∧ ReadOrCreateWithCtx regMain envNoRows background recA "name" [] =
        (.ok (true, 7, none, setPk miA recA 7), [.readCall false, .insertCall])
    ∧ ReadOrCreateWithCtx regMain envBase background recA "name" [] =
        (.ok (false, recA.pkInt, none, recA), [.readCall false]) :=
  ⟨rfl, rfl,
   ((C4_readOrCreate_amended regMain envNoRows background recA miA "name" []
      rfl).1 rfl).1 rfl,
   (C4_readOrCreate_amended regMain envBase background recA miA "name" []
      rfl).2 none rfl (by decide) rfl⟩

/-- C5: when the target model is not registered (in the by-full-name map for
record-taking operations, in the by-table map for a `QueryTable` string),
every session operation fails with the not-registered / not-exists panic
immediately: no builder state is produced and no `DbBaser` call (no SQL) is
made — the returned call trace is empty. -/
theorem C5_unregistered_fails_before_sql (reg : RegEnv) (env : DbEnv)
    (ctx : Context) (existPk : Record → Bool) (r : Record) (s : String)
    (h : alistLookup reg.byFullName r.model = none)
    (h2 : alistLookup reg.byTable (reg.strategy s) = none) :
    (∀ cols, ReadWithCtx reg env ctx r cols =
      (.error (tableNotFoundMsg r.model), []))
    ∧ (∀ cols, ReadForUpdateWithCtx reg env ctx r cols =
      (.error (tableNotFoundMsg r.model), []))
    ∧ (∀ col1 cols, ReadOrCreateWithCtx reg env ctx r col1 cols =
      (.error (tableNotFoundMsg r.model), []))
    ∧ (InsertWithCtx reg env ctx r = (.error (tableNotFoundMsg r.model), []))
    ∧ (∀ bulk rest, InsertMultiWithCtx reg env ctx bulk (.records (r :: rest)) =
      (.error (tableNotFoundMsg r.model), []))
    ∧ (∀ cc, InsertOrUpdateWithCtx reg env ctx r cc =
      (.error (tableNotFoundMsg r.model), []))
    ∧ (∀ cols, UpdateWithCtx reg env ctx r cols =
      (.error (tableNotFoundMsg r.model), []))
    ∧ (∀ cols, DeleteWithCtx reg env ctx r cols =
      (.error (tableNotFoundMsg r.model), []))
    ∧ (∀ name, QueryM2MWithCtx reg ctx r name = .error (tableNotFoundMsg r.model))
    ∧ (∀ name args, LoadRelatedWithCtx reg existPk env ctx r name args =
      (.error (tableNotFoundMsg r.model), []))
    ∧ (∀ name, QueryRelatedWithCtx reg existPk ctx r name =
      .error (tableNotFoundMsg r.model))
    ∧ (QueryTableWithCtx reg ctx (.byRecord r) = .error (tableNotExistsMsg r.model))
    ∧ (QueryTableWithCtx reg ctx (.byName s) =
      .error (tableNotExistsMsg (reg.strategy s))) := by
  refine ⟨?_, ?_, ?_, ?_, ?_, ?_, ?_, ?_, ?_, ?_, ?_, ?_, ?_⟩
  · intro cols
    simp [ReadWithCtx, getMiInd, h]
  · intro cols
    simp [ReadForUpdateWithCtx, getMiInd, h]
  · intro col1 cols
    rw [ReadOrCreateWithCtx.eq_def]
    simp [getMiInd, h]
  · simp [InsertWithCtx, getMiInd, h]
  · intro bulk rest
    by_cases hb : bulk ≤ 1 <;>
      simp [InsertMultiWithCtx, insertMultiLoop, getMiInd, h, hb]
  · intro cc
    simp [InsertOrUpdateWithCtx, getMiInd, h]
  · intro cols
    simp [UpdateWithCtx, getMiInd, h]
  · intro cols
    simp [DeleteWithCtx, getMiInd, h]
  · intro name
    simp [QueryM2MWithCtx, getMiInd, h]
  · intro name args
    simp [LoadRelatedWithCtx, queryRelated, getMiInd, h]
  · intro name
    simp [QueryRelatedWithCtx, queryRelated, getMiInd, h, Except.map]
  · simp [QueryTableWithCtx, h]
  · simp [QueryTableWithCtx, h2]

/-- C5 witness: with the empty registry every operation on the unregistered
record `recU` (and `QueryTable` on the unknown table name) fails with the
not-registered panic and an empty call trace. -/
theorem C5_unregistered_fails_before_sql_witness :
    alistLookup regEmpty.byFullName recU.model = none
    ∧ ReadWithCtx regEmpty envBase background recU [] =
        (.error (tableNotFoundMsg "pkgU.U"), [])
    ∧ InsertWithCtx regEmpty envBase background recU =
        (.error (tableNotFoundMsg "pkgU.U"), [])
    ∧ QueryTableWithCtx regEmpty background (.byName "user") =
        .error (tableNotExistsMsg "user") :=
  ⟨rfl,
   (C5_unregistered_fails_before_sql regEmpty envBase background (fun _ => true)
      recU "user" rfl rfl).1 [],
   (C5_unregistered_fails_before_sql regEmpty envBase background (fun _ => true)
      recU "user" rfl rfl).2.2.2.1,
   (C5_unregistered_fails_before_sql regEmpty envBase background (fun _ => true)
      recU "user" rfl rfl).2.2.2.2.2.2.2.2.2.2.2.2⟩

/-- C9: on a to-one relation field (one-to-one, foreign-key or reverse-one)
of a registered model with its pk set, `LoadRelated` overrides any
caller-supplied limit and offset to 1 and 0 (visible in the returned builder
state, whatever the positional arguments were); when `qs.One` succeeds the
single related record is stored into the owning record's relation field and
the count is 1; when it fails the record is left unchanged and count 0 is
returned alongside the error. -/
theorem C9_loadRelated_to_one (reg : RegEnv) (existPk : Record → Bool)
    (env : DbEnv) (ctx : Context) (r : Record) (name : String) (args : List LArg)
    (mi : ModelInfo) (fi : FieldInfo)
    (hmi : alistLookup reg.byFullName r.model = some mi)
    (hfi : alistLookup mi.fields name = some fi)
    (hone : isToOne fi.fieldType = true)
    (hin : fi.inModel = true)
    (hpk : existPk r = true) :
    (∀ v, env.oneRes = .ok v →
      LoadRelatedWithCtx reg existPk env ctx r name args =
        (.ok (1, none, r.setRelOne (some v),
          ⟨1, 0, parsedRelDepth args,
           if (parsedOrder args).length > 0 then [parsedOrder args] else []⟩),
         [.oneCall]))
    ∧ (∀ e, env.oneRes = .error e →
      LoadRelatedWithCtx reg existPk env ctx r name args =
        (.ok (0, some e, r,
          ⟨1, 0, parsedRelDepth args,
           if (parsedOrder args).length > 0 then [parsedOrder args] else []⟩),
         [.oneCall])) := by
  constructor
  · intro v hv
    cases hft : fi.fieldType <;>
      simp_all [LoadRelatedWithCtx, queryRelated, getMiInd, getFieldInfo,
        newQuerySet0, isToOne]
  · intro e he
    cases hft : fi.fieldType <;>
      simp_all [LoadRelatedWithCtx, queryRelated, getMiInd, getFieldInfo,
        newQuerySet0, isToOne]

/-- C9 witness: loading `recA`'s one-to-one field `Profile` with
caller-supplied limit 5 and offset 3 still yields builder limit 1 / offset 0;
on success the related record is stored and the count is 1; with the failing
`qs.One` environment the record is unchanged and `(0, err)` is returned. -/
theorem C9_loadRelated_to_one_witness :
    alistLookup regMain.byFullName recA.model = some miA
    ∧ alistLookup miA.fields "Profile" = some ⟨.relOneToOne, true, false⟩
    ∧ LoadRelatedWithCtx regMain (fun _ => true) envBase background recA "Profile"
        [.boolArg false, .intArg 5, .intArg 3] =
      (.ok (1, none, recA.setRelOne (some recB), ⟨1, 0, 0, []⟩), [.oneCall])
    ∧ LoadRelatedWithCtx regMain (fun _ => true) envOneFail background recA "Profile"
        [] =
      (.ok (0, some (.driver 4), recA, ⟨1, 0, 0, []⟩), [.oneCall]) :=
  ⟨rfl, rfl,
   (C9_loadRelated_to_one regMain (fun _ => true) envBase background recA "Profile"
      [.boolArg false, .intArg 5, .intArg 3] miA ⟨.relOneToOne, true, false⟩
      rfl rfl rfl rfl rfl).1 recB rfl,
   (C9_loadRelated_to_one regMain (fun _ => true) envOneFail background recA "Profile"
      [] miA ⟨.relOneToOne, true, false⟩ rfl rfl rfl rfl rfl).2 (.driver 4) rfl⟩
